import Mathlib

/-!
Verification of the scrape orchestrator (pptr-scraper).

Shallow embedding of:
- src/src/scrape.ts       : challenge detection and the scrape retry loop
- src/src/wireguard.ts    : the WireGuard egress-point registry
- src/unnamed/part_000    : the session pool (newPage retry, create factory)
- src/unnamed/part_002    : the /scrape request handler (catch/finally fate)

External effects (navigation results, CAPTCHA solving, tunnel tool
invocations, randomness) are modelled as explicit environment inputs;
JavaScript exceptions are modelled with Except.
-/

namespace PptrScraper

/-! ## Embedding of src/src/scrape.ts -/

/-- const maxAttempts = 1 (src/src/scrape.ts:34). -/
def maxAttempts : Nat := 1

instance {ε α : Type _} [DecidableEq ε] [DecidableEq α] : DecidableEq (Except ε α) :=
  fun x y =>
    match x, y with
    | .ok a, .ok b =>
      if h : a = b then .isTrue (congrArg Except.ok h)
      else .isFalse (fun hc => h (Except.ok.inj hc))
    | .error e1, .error e2 =>
      if h : e1 = e2 then .isTrue (congrArg Except.error h)
      else .isFalse (fun hc => h (Except.error.inj hc))
    | .ok _, .error _ => .isFalse (fun hc => Except.noConfusion hc)
    | .error _, .ok _ => .isFalse (fun hc => Except.noConfusion hc)

/-- One puppeteer HTTPResponse as observed by scrape: status(), headers(),
statusText(), and the outcome of resp.buffer() (which may throw). -/
structure Resp where
  status : Nat
  headers : List (String × String)
  statusText : String
  bufferResult : Except String (List Nat)
deriving Repr, DecidableEq

/-- JS object property read headers[k]: first binding wins. -/
def headerValue (headers : List (String × String)) (k : String) : Option String :=
  (headers.find? (fun p => p.1 == k)).map Prod.snd

/-- isCloudflareMitigateResponse (src/src/scrape.ts:36-40):
status 403 and header cf-mitigated equal to the string challenge. -/
def isCloudflareMitigateResponse (resp : Resp) : Bool :=
  resp.status == 403 && headerValue resp.headers "cf-mitigated" == some "challenge"

/-- ScrapeResult (src/src/scrape.ts:14-20); body null is modelled as none. -/
structure ScrapeResult where
  body : Option (List Nat)
  headers : List (String × String)
  status : Nat
  statusText : String
  finalUrl : String
deriving Repr, DecidableEq

/-- Exceptions that scrape can propagate. -/
inductive ScrapeErr where
  | maxAttemptsExceeded (msg : String)
  | navError (msg : String)
deriving Repr, DecidableEq

/-- The message built by MaxScrapeAttemptsExceededError (src/src/scrape.ts:67-73). -/
def maxAttemptsMessage (url : String) : String :=
  "Max scrape attempts " ++ toString maxAttempts ++
    " exceeded while trying to scrape \"" ++ url ++ "\""

/-- ScrapeParams (src/src/scrape.ts:5-12). The page handle itself is part of
the environment below. -/
structure ScrapeParams where
  url : String
  infiniteScroll : Bool
  waitForNetwork : Bool
  maxScrolls : Option Nat
  blockResources : Bool
deriving Repr, DecidableEq

/-- Environment of one page: the result of the k-th page.goto on it, the
outcome of solveCloudflareTurnstile after the k-th navigation, the outcome of
page.content() after the k-th navigation, and page.url() after the k-th
navigation. -/
structure PageEnv where
  nav : Nat → Option Resp
  solveResult : Nat → Except String Unit
  content : Nat → Except String (List Nat)
  pageUrl : Nat → String

/-- scrape (src/src/scrape.ts:151-247). navIdx counts the page.goto calls
performed so far on this page; the returned Nat is the total count, so the
number of navigations performed by a call is the difference. Resource
blocking, scrolling and waitForNetworkIdle do not affect the returned record
except through the environment, so they carry no separate model state. -/
def scrape (env : PageEnv) (ps : ScrapeParams) (attempts : Nat) (navIdx : Nat) :
    Except ScrapeErr (Option ScrapeResult) × Nat :=
  if hcap : attempts > maxAttempts then
    (.error (.maxAttemptsExceeded (maxAttemptsMessage ps.url)), navIdx)
  else
    match env.nav navIdx with
    | none => (.ok none, navIdx + 1)
    | some resp =>
      if isCloudflareMitigateResponse resp then
        match env.solveResult navIdx with
        | .error e => (.error (.navError e), navIdx + 1)
        | .ok _ => scrape env ps (attempts + 1) (navIdx + 1)
      else
        match (if ps.infiniteScroll then env.content navIdx else resp.bufferResult) with
        | .ok b =>
          (.ok (some { body := some b, headers := resp.headers, status := resp.status,
                       statusText := resp.statusText, finalUrl := env.pageUrl navIdx }),
           navIdx + 1)
        | .error e =>
          if ps.infiniteScroll then
            (.error (.navError e), navIdx + 1)
          else
            (.ok (some { body := none, headers := resp.headers, status := resp.status,
                         statusText := resp.statusText, finalUrl := env.pageUrl navIdx }),
             navIdx + 1)
termination_by maxAttempts + 1 - attempts
decreasing_by
  simp only [maxAttempts] at *
  omega

/-- A 403 response carrying the managed-challenge header. -/
def challengeResp : Resp :=
  { status := 403
    headers := [("cf-mitigated", "challenge")]
    statusText := "Forbidden"
    bufferResult := .ok [] }

/-- A plain 200 response. -/
def okResp : Resp :=
  { status := 200
    headers := [("content-type", "text/html")]
    statusText := "OK"
    bufferResult := .ok [79, 75] }

/-- A page whose first navigation is challenge-mitigated, whose turnstile
solve succeeds and whose second navigation would return 200 OK. -/
def cfChallengeEnv : PageEnv :=
  { nav := fun n => if n = 0 then some challengeResp else some okResp
    solveResult := fun _ => .ok ()
    content := fun _ => .ok []
    pageUrl := fun _ => "https://example.com/" }

/-- Default-flag scrape parameters for https://example.com/. -/
def cfChallengeParams : ScrapeParams :=
  { url := "https://example.com/"
    infiniteScroll := false
    waitForNetwork := false
    maxScrolls := none
    blockResources := true }

/-- C3: a fetch outcome is classified as a managed challenge iff its status is
403 and the cf-mitigated response header is present with exactly the value
challenge. -/
theorem managed_challenge_detection_iff (resp : Resp) :
    isCloudflareMitigateResponse resp = true ↔
      resp.status = 403 ∧ headerValue resp.headers "cf-mitigated" = some "challenge" := by
  simp [isCloudflareMitigateResponse]

/-- C1: on a managed challenge whose solve succeeds and whose retry would
return 200, scrape raises MaxScrapeAttemptsExceededError (message naming the
URL and the ceiling 1) at the entry of the retry call, after performing only
the single original navigation — the retry navigation never occurs, because
maxAttempts = 1 admits no second attempt. -/
theorem challenge_retry_hits_max_attempts :
    scrape cfChallengeEnv cfChallengeParams 1 0 =
      (.error (.maxAttemptsExceeded (maxAttemptsMessage "https://example.com/")), 1) := by
  rw [scrape, scrape]
  simp [cfChallengeEnv, cfChallengeParams, challengeResp, isCloudflareMitigateResponse,
    headerValue, maxAttempts]

/-! ## Embedding of src/src/wireguard.ts -/

/-- WireGuardConfig (src/src/wireguard.ts:6-15). lastHealthCheck carries no
logic and is omitted. -/
structure WGConfig where
  id : String
  name : String
  location : String
  endpoint : String
  config : String
  isActive : Bool
  isHealthy : Bool
deriving Repr, DecidableEq

/-- The manager state: the configs Map (insertion-ordered, keyed by id) and
activeConfigId (src/src/wireguard.ts:35-36). -/
structure WGState where
  configs : List WGConfig
  activeConfigId : Option String
deriving Repr, DecidableEq

/-- this.configs.get(id). -/
def getConfig (s : WGState) (id : String) : Option WGConfig :=
  s.configs.find? (fun c => c.id == id)

/-- Mutation config.isActive = b for the config keyed id. -/
def setActiveFlag (cs : List WGConfig) (id : String) (b : Bool) : List WGConfig :=
  cs.map (fun c => if c.id == id then { c with isActive := b } else c)

/-- Mutation config.isHealthy = b for the config keyed id. -/
def setHealthFlag (cs : List WGConfig) (id : String) (b : Bool) : List WGConfig :=
  cs.map (fun c => if c.id == id then { c with isHealthy := b } else c)

/-- JS Map.set: replace in place when the key exists, else append. -/
def mapSet (cs : List WGConfig) (c : WGConfig) : List WGConfig :=
  if cs.any (fun x => x.id == c.id) then
    cs.map (fun x => if x.id == c.id then c else x)
  else cs ++ [c]

/-- JS Map.delete. -/
def mapDelete (cs : List WGConfig) (id : String) : List WGConfig :=
  cs.filter (fun c => !(c.id == id))

/-- Outcomes of the external tunnel tooling during one operation: whether
which wg-quick finds the tool, and whether the wg-quick down / up invocations
succeed when attempted. -/
structure TunnelEnv where
  wgAvailable : Bool
  downOk : Bool
  upOk : Bool
deriving Repr, DecidableEq

/-- disconnectVPN (src/src/wireguard.ts:224-251): no-op when no active
pointer or dangling pointer; with the tool unavailable, simulated disconnect;
when wg-quick down throws, the error is swallowed and neither the flag nor
the pointer is cleared. -/
def disconnectVPN (s : WGState) (env : TunnelEnv) : WGState :=
  match s.activeConfigId with
  | none => s
  | some aid =>
    match getConfig s aid with
    | none => s
    | some _ =>
      if !env.wgAvailable then
        { configs := setActiveFlag s.configs aid false, activeConfigId := none }
      else if env.downOk then
        { configs := setActiveFlag s.configs aid false, activeConfigId := none }
      else s

/-- connectToVPN (src/src/wireguard.ts:186-222): throws on unknown id;
otherwise first disconnects the active point, then either simulates the
connection (tool unavailable) or runs wg-quick up; on success sets the flag
and the pointer, on failure returns false with the post-disconnect state. -/
def connectToVPN (s : WGState) (id : String) (env : TunnelEnv) :
    Except String (Bool × WGState) :=
  match getConfig s id with
  | none => .error ("WireGuard config with ID \"" ++ id ++ "\" not found")
  | some _ =>
    let s1 := disconnectVPN s env
    if !env.wgAvailable then
      .ok (true, { configs := setActiveFlag s1.configs id true, activeConfigId := some id })
    else if env.upOk then
      .ok (true, { configs := setActiveFlag s1.configs id true, activeConfigId := some id })
    else
      .ok (false, s1)

/-- Substring occurrence at any position. -/
def includesAux (needle : List Char) : List Char → Bool
  | [] => needle.isEmpty
  | a :: t => needle.isPrefixOf (a :: t) || includesAux needle t

/-- configText.includes(needle). -/
def includesStr (hay needle : String) : Bool :=
  includesAux needle.toList hay.toList

/-- validateConfig (src/src/wireguard.ts:276-289). -/
def validateConfig (configText : String) : Bool :=
  includesStr configText "[Interface]" && includesStr configText "[Peer]" &&
    includesStr configText "PrivateKey" && includesStr configText "PublicKey" &&
    includesStr configText "Endpoint"

/-- The argument of addConfig. -/
structure AddConfigData where
  name : String
  location : String
  config : String
deriving Repr, DecidableEq

/-- wireGuardConfigSchema (src/src/wireguard.ts:28-32): three nonempty strings. -/
def wireGuardConfigSchemaCheck (d : AddConfigData) : Bool :=
  decide (1 ≤ d.name.length) && decide (1 ≤ d.location.length) &&
    decide (1 ≤ d.config.length)

/-- Helper for the regex match on the text after one Endpoint occurrence:
skip whitespace, expect the equals sign, skip whitespace, capture to the end
of the line, trim; on no match try the next occurrence. -/
def extractEndpointAux : List String → String
  | [] => "unknown"
  | seg :: rest =>
    match seg.toList.dropWhile (fun ch => ch.isWhitespace) with
    | '=' :: r =>
      let body := (r.dropWhile (fun ch => ch.isWhitespace)).takeWhile (fun ch => ch != '\n')
      if body.isEmpty then extractEndpointAux rest
      else (String.mk body).trim
    | _ => extractEndpointAux rest

/-- The regex extraction of Endpoint from the config text
(src/src/wireguard.ts:302-303); unknown when there is no match. -/
def extractEndpoint (config : String) : String :=
  match config.splitOn "Endpoint" with
  | [] => "unknown"
  | _ :: rest => extractEndpointAux rest

/-- name.toLowerCase().replace of whitespace runs by a single dash; prevWs
records whether the previous character belonged to a whitespace run. -/
def slugCharsAux (prevWs : Bool) : List Char → List Char
  | [] => []
  | c :: cs =>
    if c.isWhitespace then
      if prevWs then slugCharsAux true cs
      else '-' :: slugCharsAux true cs
    else c :: slugCharsAux false cs

/-- Collapse every whitespace run to one dash. -/
def slugChars (l : List Char) : List Char :=
  slugCharsAux false l

/-- The id stem built in addConfig (src/src/wireguard.ts:305). -/
def slugify (nameStr : String) : String :=
  String.mk (slugChars nameStr.toLower.toList)

/-- addConfig (src/src/wireguard.ts:291-323), returning the thrown error or
the fresh id together with the resulting registry state; now stands for
Date.now(). The immediate health probe is asynchronous and modelled as a
separate healthCheck step. -/
def addConfig (s : WGState) (d : AddConfigData) (now : Nat) :
    Except String String × WGState :=
  if !(wireGuardConfigSchemaCheck d) then
    (.error "Invalid WireGuard config", s)
  else if !(validateConfig d.config) then
    (.error "Invalid WireGuard configuration format", s)
  else
    let endpoint := extractEndpoint d.config
    let id := slugify d.name ++ "-" ++ toString now
    let c : WGConfig :=
      { id := id, name := d.name, location := d.location, endpoint := endpoint,
        config := d.config, isActive := false, isHealthy := false }
    (.ok id, { s with configs := mapSet s.configs c })

/-- removeConfig (src/src/wireguard.ts:325-337): false on unknown id;
disconnects first when the point is active, then deletes the entry. -/
def removeConfig (s : WGState) (id : String) (env : TunnelEnv) : Bool × WGState :=
  match getConfig s id with
  | none => (false, s)
  | some c =>
    let s1 := if c.isActive then disconnectVPN s env else s
    (true, { s1 with configs := mapDelete s1.configs id })

/-- checkHealth (src/src/wireguard.ts:151-184): the probe outcome healthy is
an environment input; only the health flag changes. -/
def checkHealth (s : WGState) (id : String) (healthy : Bool) : WGState :=
  match getConfig s id with
  | none => s
  | some _ => { s with configs := setHealthFlag s.configs id healthy }

/-- selectBestConfig (src/src/wireguard.ts:339-361); r models the value
drawn by Math.random scaled to an index. -/
def selectBestConfig (s : WGState) (loc : Option String) (r : Nat) : Option WGConfig :=
  let candidates1 :=
    match loc with
    | some l => s.configs.filter (fun c => c.location == l)
    | none => s.configs
  let healthyCandidates := candidates1.filter (fun c => c.isHealthy)
  let candidates2 :=
    if healthyCandidates.length = 0 then
      (if candidates1.length > 0 then candidates1 else s.configs)
    else healthyCandidates
  if candidates2.length = 0 then none
  else candidates2.get? (r % candidates2.length)

/-- One registry operation together with the outcomes of the external
capabilities it consults. -/
inductive WGOp where
  | connect (id : String) (env : TunnelEnv)
  | disconnect (env : TunnelEnv)
  | add (d : AddConfigData) (now : Nat)
  | remove (id : String) (env : TunnelEnv)
  | healthCheck (id : String) (healthy : Bool)
deriving Repr, DecidableEq

/-- The state transition of one operation (return values and thrown errors
leave the state as the code leaves it). -/
def applyOp (s : WGState) (op : WGOp) : WGState :=
  match op with
  | .connect id env =>
    match connectToVPN s id env with
    | .ok (_, s1) => s1
    | .error _ => s
  | .disconnect env => disconnectVPN s env
  | .add d now => (addConfig s d now).2
  | .remove id env => (removeConfig s id env).2
  | .healthCheck id healthy => checkHealth s id healthy

/-- Run a sequence of registry operations. -/
def runOps (s : WGState) (ops : List WGOp) : WGState :=
  ops.foldl applyOp s

/-- initializeDefaultConfigs (src/src/wireguard.ts:49-132). -/
def initialState : WGState :=
  { configs :=
      [ { id := "istanbul-tr", name := "Istanbul Turkey", location := "tr",
          endpoint := "istanbul.tr.wg.nordhold.net:51820",
          config := "[Interface]\nAddress = 10.5.0.2/16\nPrivateKey = A/Jb/H+TepfRmSxqlx5Y13kxP22Lpv3XNfOzwGhZVmE=\nDNS = 103.86.96.100\nMTU = 1350\n\n[Peer]\nAllowedIPs = 0.0.0.0/0\nEndpoint = istanbul.tr.wg.nordhold.net:51820\nPersistentKeepalive = 25\nPublicKey = mlY5bcC+NtXxHYpDSANkiQABeYwAAB4lMwgNhAbE4BI=",
          isActive := false, isHealthy := false },
        { id := "berlin-de", name := "Berlin Germany", location := "de",
          endpoint := "berlin.de.wg.nordhold.net:51820",
          config := "[Interface]\nAddress = 10.5.0.2/16\nPrivateKey = A/Jb/H+TepfRmSxqlx5Y13kxP22Lpv3XNfOzwGhZVmE=\nDNS = 103.86.96.100\nMTU = 1350\n\n[Peer]\nAllowedIPs = 0.0.0.0/0\nEndpoint = berlin.de.wg.nordhold.net:51820\nPersistentKeepalive = 25\nPublicKey = 3ZNjosvvIqfvu3/BqaLzNNXs9zWO4jXpcXNOmDMDpX0=",
          isActive := false, isHealthy := false },
        { id := "brussels-be", name := "Brussels Belgium", location := "be",
          endpoint := "brussels.be.wg.nordhold.net:51820",
          config := "[Interface]\nAddress = 10.5.0.2/16\nPrivateKey = A/Jb/H+TepfRmSxqlx5Y13kxP22Lpv3XNfOzwGhZVmE=\nDNS = 103.86.96.100\nMTU = 1350\n\n[Peer]\nAllowedIPs = 0.0.0.0/0\nEndpoint = brussels.be.wg.nordhold.net:51820\nPersistentKeepalive = 25\nPublicKey = VSa6XYcD279ahd3IuEiUH6VpXn0+h+kWrD4OcN1ExUs=",
          isActive := false, isHealthy := false },
        { id := "dubai-ae", name := "Dubai UAE", location := "ae",
          endpoint := "dubai.ae.wg.nordhold.net:51820",
          config := "[Interface]\nAddress = 10.5.0.2/16\nPrivateKey = A/Jb/H+TepfRmSxqlx5Y13kxP22Lpv3XNfOzwGhZVmE=\nDNS = 103.86.96.100\nMTU = 1350\n\n[Peer]\nAllowedIPs = 0.0.0.0/0\nEndpoint = dubai.ae.wg.nordhold.net:51820\nPersistentKeepalive = 25\nPublicKey = 8YHJW3c2We+C3+Ym7NPVPa3rzuZgx825okEa7+fzHSE=",
          isActive := false, isHealthy := false } ]
    activeConfigId := none }

/-- The number of registered points whose active flag is set. -/
def activeCount (s : WGState) : Nat :=
  (s.configs.filter (fun c => c.isActive)).length

/-- First connect istanbul-tr (tool present, down and up succeed), then
connect berlin-de while the wg-quick down invocation fails and the wg-quick
up invocation succeeds. -/
def twoActiveOps : List WGOp :=
  [ .connect "istanbul-tr" { wgAvailable := true, downOk := true, upOk := true },
    .connect "berlin-de" { wgAvailable := true, downOk := false, upOk := true } ]

/-- C4 counterexample: after connecting istanbul-tr and then connecting
berlin-de while the tunnel-down invocation inside that connect fails (its
error is swallowed without clearing the flag), two registered points carry
active=true at once. -/
theorem two_points_active_counterexample :
    activeCount (runOps initialState twoActiveOps) = 2 := by
  decide

/-- C9: when no point is active (the active pointer is empty), disconnectVPN
returns without raising and leaves the whole registry state unchanged. -/
theorem disconnect_noop_when_inactive (s : WGState) (env : TunnelEnv)
    (h : s.activeConfigId = none) : disconnectVPN s env = s := by
  unfold disconnectVPN
  rw [h]

/-- C9 witness: disconnecting the freshly initialized registry (nothing
active) changes nothing, for any tunnel-tool outcome. -/
theorem disconnect_noop_when_inactive_witness :
    disconnectVPN initialState { wgAvailable := true, downOk := true, upOk := true } =
      initialState :=
  disconnect_noop_when_inactive initialState
    { wgAvailable := true, downOk := true, upOk := true } rfl

/-- C6: when the configuration text lacks a required section or key
(validateConfig rejects it), addConfig raises and the registry state is
exactly what it was before the call. -/
theorem add_invalid_config_unchanged (s : WGState) (d : AddConfigData) (now : Nat)
    (hval : validateConfig d.config = false) :
    (∃ e, (addConfig s d now).1 = Except.error e) ∧ (addConfig s d now).2 = s := by
  unfold addConfig
  by_cases hs : wireGuardConfigSchemaCheck d = true
  · simp [hs, hval]
  · simp [Bool.not_eq_true] at hs
    simp [hs]

/-- A registration input whose configuration text has no peer section. -/
def missingPeerData : AddConfigData :=
  { name := "Test Server", location := "de",
    config := "[Interface]\nPrivateKey = abc\nPublicKey = def\nEndpoint = host:51820" }

/-- C6 witness: registering a configuration missing the peer/endpoint section
errors and leaves the registry unchanged. -/
theorem add_invalid_config_unchanged_witness :
    (∃ e, (addConfig initialState missingPeerData 7).1 = Except.error e) ∧
      (addConfig initialState missingPeerData 7).2 = initialState :=
  add_invalid_config_unchanged initialState missingPeerData 7 (by decide)

/-- Registered ids are pairwise distinct (the key set of the configs Map). -/
def IdsNodup (s : WGState) : Prop :=
  (s.configs.map (fun c => c.id)).Nodup

/-- Every point whose active flag is set is the point the active pointer
names. -/
def ActiveOk (s : WGState) : Prop :=
  ∀ c ∈ s.configs, c.isActive = true → s.activeConfigId = some c.id

/-- The registry invariant maintained by the operations. -/
def RegistryInv (s : WGState) : Prop := IdsNodup s ∧ ActiveOk s

/-- The tunnel-down invocation of this operation cannot fail: either the
tool is absent (simulated disconnect) or wg-quick down succeeds. -/
def envDownSafe (env : TunnelEnv) : Bool := !env.wgAvailable || env.downOk

/-- envDownSafe for every operation that may invoke a disconnect. -/
def opDownSafe : WGOp → Bool
  | .connect _ env => envDownSafe env
  | .disconnect env => envDownSafe env
  | .remove _ env => envDownSafe env
  | .add _ _ => true
  | .healthCheck _ _ => true

theorem setActiveFlag_map_id (cs : List WGConfig) (id : String) (b : Bool) :
    (setActiveFlag cs id b).map (fun c => c.id) = cs.map (fun c => c.id) := by
  unfold setActiveFlag
  induction cs with
  | nil => rfl
  | cons a t ih =>
    simp only [List.map_cons]
    rw [ih]
    by_cases h : (a.id == id) = true
    · rw [if_pos h]
    · rw [if_neg h]

theorem setHealthFlag_map_id (cs : List WGConfig) (id : String) (b : Bool) :
    (setHealthFlag cs id b).map (fun c => c.id) = cs.map (fun c => c.id) := by
  unfold setHealthFlag
  induction cs with
  | nil => rfl
  | cons a t ih =>
    simp only [List.map_cons]
    rw [ih]
    by_cases h : (a.id == id) = true
    · rw [if_pos h]
    · rw [if_neg h]

theorem disconnectVPN_map_id (s : WGState) (env : TunnelEnv) :
    ((disconnectVPN s env).configs).map (fun c => c.id) =
      s.configs.map (fun c => c.id) := by
  cases hp : s.activeConfigId with
  | none => simp only [disconnectVPN, hp]
  | some aid =>
    cases hg : getConfig s aid with
    | none => simp only [disconnectVPN, hp, hg]
    | some c1 =>
      simp only [disconnectVPN, hp, hg]
      split
      · exact setActiveFlag_map_id s.configs aid false
      · split
        · exact setActiveFlag_map_id s.configs aid false
        · rfl

theorem clear_flag_all_inactive {s : WGState} {aid : String} (h : ActiveOk s)
    (hp : s.activeConfigId = some aid) :
    ∀ c' ∈ setActiveFlag s.configs aid false, c'.isActive = false := by
  intro c' hc'
  unfold setActiveFlag at hc'
  rcases List.mem_map.1 hc' with ⟨c0, hc0, rfl⟩
  by_cases hid : (c0.id == aid) = true
  · rw [if_pos hid]
  · rw [if_neg hid]
    cases hact : c0.isActive
    · rfl
    · exfalso
      have hpt := h c0 hc0 hact
      rw [hp] at hpt
      exact hid (by simp [(Option.some.inj hpt).symm])

theorem disconnectVPN_all_inactive (s : WGState) (env : TunnelEnv)
    (hsafe : envDownSafe env = true) (h : ActiveOk s) :
    ∀ c ∈ (disconnectVPN s env).configs, c.isActive = false := by
  cases hp : s.activeConfigId with
  | none =>
    simp only [disconnectVPN, hp]
    intro c hc
    cases hact : c.isActive
    · rfl
    · exfalso
      have hpt := h c hc hact
      rw [hp] at hpt
      exact Option.noConfusion hpt
  | some aid =>
    cases hg : getConfig s aid with
    | none =>
      simp only [disconnectVPN, hp, hg]
      intro c hc
      cases hact : c.isActive
      · rfl
      · exfalso
        have hpt := h c hc hact
        rw [hp] at hpt
        have hida : aid = c.id := Option.some.inj hpt
        unfold getConfig at hg
        have hnone := List.find?_eq_none.1 hg c hc
        exact hnone (by simp [hida])
    | some c1 =>
      simp only [disconnectVPN, hp, hg]
      split
      · exact clear_flag_all_inactive h hp
      · split
        · exact clear_flag_all_inactive h hp
        · rename_i h1 h2
          exfalso
          unfold envDownSafe at hsafe
          simp only [Bool.not_eq_true', Bool.not_eq_true] at h1 h2
          rw [Bool.not_eq_false] at h1
          rw [h1, h2] at hsafe
          simp at hsafe

theorem disconnectVPN_activeOk (s : WGState) (env : TunnelEnv)
    (h : ActiveOk s) : ActiveOk (disconnectVPN s env) := by
  cases hp : s.activeConfigId with
  | none => simpa only [disconnectVPN, hp] using h
  | some aid =>
    cases hg : getConfig s aid with
    | none => simpa only [disconnectVPN, hp, hg] using h
    | some c1 =>
      simp only [disconnectVPN, hp, hg]
      split
      · intro c' hc' hact
        exact absurd hact (by simp [clear_flag_all_inactive h hp c' hc'])
      · split
        · intro c' hc' hact
          exact absurd hact (by simp [clear_flag_all_inactive h hp c' hc'])
        · exact h

theorem map_id_of_preserving {cs : List WGConfig} {f : WGConfig → WGConfig}
    (hf : ∀ x ∈ cs, (f x).id = x.id) :
    (cs.map f).map (fun x => x.id) = cs.map (fun x => x.id) := by
  induction cs with
  | nil => rfl
  | cons a t ih =>
    simp only [List.map_cons]
    rw [hf a (List.mem_cons_self a t),
      ih (fun x hx => hf x (List.mem_cons_of_mem a hx))]

theorem mapSet_ids_nodup {cs : List WGConfig} (c : WGConfig)
    (hn : (cs.map (fun x => x.id)).Nodup) :
    ((mapSet cs c).map (fun x => x.id)).Nodup := by
  unfold mapSet
  by_cases hany : (cs.any (fun x => x.id == c.id)) = true
  · rw [if_pos hany]
    rw [map_id_of_preserving]
    · exact hn
    · intro x _
      by_cases hx : (x.id == c.id) = true
      · rw [if_pos hx]
        exact (eq_of_beq hx).symm
      · rw [if_neg hx]
  · rw [if_neg hany]
    rw [List.map_append]
    rw [List.nodup_append]
    refine ⟨hn, by simp, ?_⟩
    intro z hz hz2
    simp only [List.map_cons, List.map_nil, List.mem_singleton] at hz2
    subst hz2
    rcases List.mem_map.1 hz with ⟨x, hx, hxid⟩
    exact hany (List.any_eq_true.2 ⟨x, hx, by simp [hxid]⟩)

theorem mapSet_activeOk {s : WGState} {c : WGConfig} (hao : ActiveOk s)
    (hc : c.isActive = false) :
    ActiveOk { s with configs := mapSet s.configs c } := by
  intro c' hc' hact
  simp only at hc' ⊢
  unfold mapSet at hc'
  by_cases hany : (s.configs.any (fun x => x.id == c.id)) = true
  · rw [if_pos hany] at hc'
    rcases List.mem_map.1 hc' with ⟨x, hx, rfl⟩
    by_cases hxid : (x.id == c.id) = true
    · rw [if_pos hxid] at hact ⊢
      rw [hc] at hact
      exact Bool.noConfusion hact
    · rw [if_neg hxid] at hact ⊢
      exact hao x hx hact
  · rw [if_neg hany] at hc'
    rcases List.mem_append.1 hc' with hin | hin
    · exact hao c' hin hact
    · rw [List.mem_singleton.1 hin] at hact
      rw [hc] at hact
      exact Bool.noConfusion hact

theorem applyOp_inv (s : WGState) (op : WGOp) (hsafe : opDownSafe op = true)
    (hinv : RegistryInv s) : RegistryInv (applyOp s op) := by
  obtain ⟨hnd, hao⟩ := hinv
  cases op with
  | connect id env =>
    have hsafe' : envDownSafe env = true := hsafe
    simp only [applyOp]
    cases hc : connectToVPN s id env with
    | error e => exact ⟨hnd, hao⟩
    | ok p =>
      cases hg : getConfig s id with
      | none =>
        simp only [connectToVPN, hg] at hc
        exact Except.noConfusion hc
      | some c0 =>
        simp only [connectToVPN, hg] at hc
        split at hc
        · obtain rfl := (Except.ok.inj hc)
          constructor
          · unfold IdsNodup
            simp only
            rw [setActiveFlag_map_id, disconnectVPN_map_id]
            exact hnd
          · intro c' hc' hact
            simp only at hc' ⊢
            unfold setActiveFlag at hc'
            rcases List.mem_map.1 hc' with ⟨x, hx, rfl⟩
            by_cases hxid : (x.id == id) = true
            · rw [if_pos hxid]
              rw [eq_of_beq hxid]
            · rw [if_neg hxid] at hact
              have := disconnectVPN_all_inactive s env hsafe' hao x hx
              rw [this] at hact
              exact Bool.noConfusion hact
        · split at hc
          · obtain rfl := (Except.ok.inj hc)
            constructor
            · unfold IdsNodup
              simp only
              rw [setActiveFlag_map_id, disconnectVPN_map_id]
              exact hnd
            · intro c' hc' hact
              simp only at hc' ⊢
              unfold setActiveFlag at hc'
              rcases List.mem_map.1 hc' with ⟨x, hx, rfl⟩
              by_cases hxid : (x.id == id) = true
              · rw [if_pos hxid]
                rw [eq_of_beq hxid]
              · rw [if_neg hxid] at hact
                have := disconnectVPN_all_inactive s env hsafe' hao x hx
                rw [this] at hact
                exact Bool.noConfusion hact
          · obtain rfl := (Except.ok.inj hc)
            constructor
            · unfold IdsNodup
              rw [disconnectVPN_map_id]
              exact hnd
            · exact disconnectVPN_activeOk s env hao
  | disconnect env =>
    simp only [applyOp]
    constructor
    · unfold IdsNodup
      rw [disconnectVPN_map_id]
      exact hnd
    · exact disconnectVPN_activeOk s env hao
  | add d now =>
    simp only [applyOp, addConfig]
    by_cases h1 : wireGuardConfigSchemaCheck d = true
    · rw [if_neg (by simp [h1])]
      by_cases h2 : validateConfig d.config = true
      · rw [if_neg (by simp [h2])]
        constructor
        · exact mapSet_ids_nodup _ hnd
        · exact mapSet_activeOk hao rfl
      · rw [if_pos (by simp [Bool.not_eq_true] at h2 ⊢; exact h2)]
        exact ⟨hnd, hao⟩
    · rw [if_pos (by simp [Bool.not_eq_true] at h1 ⊢; exact h1)]
      exact ⟨hnd, hao⟩
  | remove id env =>
    have hsafe' : envDownSafe env = true := hsafe
    simp only [applyOp, removeConfig]
    cases hg : getConfig s id with
    | none => exact ⟨hnd, hao⟩
    | some c0 =>
      simp only
      have hs1 : RegistryInv (if c0.isActive then disconnectVPN s env else s) := by
        by_cases hact : c0.isActive = true
        · rw [if_pos hact]
          refine ⟨?_, disconnectVPN_activeOk s env hao⟩
          unfold IdsNodup
          rw [disconnectVPN_map_id]
          exact hnd
        · rw [if_neg hact]
          exact ⟨hnd, hao⟩
      constructor
      · unfold IdsNodup
        simp only [mapDelete]
        exact hs1.1.sublist (List.Sublist.map (fun c : WGConfig => c.id) (List.filter_sublist _))
      · intro c' hc' hact
        simp only [mapDelete] at hc'
        exact hs1.2 c' (List.mem_of_mem_filter hc') hact
  | healthCheck id healthy =>
    simp only [applyOp, checkHealth]
    cases hg : getConfig s id with
    | none => exact ⟨hnd, hao⟩
    | some c0 =>
      constructor
      · unfold IdsNodup
        simp only
        rw [setHealthFlag_map_id]
        exact hnd
      · intro c' hc' hact
        simp only at hc' ⊢
        unfold setHealthFlag at hc'
        rcases List.mem_map.1 hc' with ⟨x, hx, rfl⟩
        by_cases hxid : (x.id == id) = true
        · rw [if_pos hxid] at hact ⊢
          exact hao x hx hact
        · rw [if_neg hxid] at hact ⊢
          exact hao x hx hact

theorem nodup_all_eq_length_le_one {α : Type _} (l : List α) (a : α)
    (hn : l.Nodup) (hall : ∀ x ∈ l, x = a) : l.length ≤ 1 := by
  match l with
  | [] => simp
  | [x] => simp
  | x :: y :: t =>
    exfalso
    have hx := hall x (by simp)
    have hy := hall y (by simp)
    rw [List.nodup_cons] at hn
    exact hn.1 (by rw [hx, ← hy]; exact List.mem_cons_self y t)

theorem registryInv_activeCount_le_one (s : WGState) (hinv : RegistryInv s) :
    activeCount s ≤ 1 := by
  unfold activeCount
  cases hl : s.configs.filter (fun c => c.isActive) with
  | nil => simp
  | cons x t =>
    have hxmem : x ∈ s.configs.filter (fun c => c.isActive) := by
      rw [hl]; exact List.mem_cons_self x t
    have hxcfg : x ∈ s.configs := List.mem_of_mem_filter hxmem
    have hxact : x.isActive = true := by simpa using List.of_mem_filter hxmem
    have hptr := hinv.2 x hxcfg hxact
    have hnodup : ((s.configs.filter (fun c => c.isActive)).map (fun c => c.id)).Nodup :=
      hinv.1.sublist (List.Sublist.map (fun c : WGConfig => c.id) (List.filter_sublist _))
    have hall : ∀ z ∈ (s.configs.filter (fun c => c.isActive)).map (fun c => c.id),
        z = x.id := by
      intro z hz
      rcases List.mem_map.1 hz with ⟨y, hy, rfl⟩
      have hycfg := List.mem_of_mem_filter hy
      have hyact : y.isActive = true := by simpa using List.of_mem_filter hy
      have hpy := hinv.2 y hycfg hyact
      rw [hptr] at hpy
      exact (Option.some.inj hpy).symm
    have hlen := nodup_all_eq_length_le_one _ x.id hnodup hall
    rw [List.length_map, hl] at hlen
    exact hlen

theorem runOps_inv (ops : List WGOp) : ∀ s : WGState, RegistryInv s →
    (∀ op ∈ ops, opDownSafe op = true) → RegistryInv (runOps s ops) := by
  induction ops with
  | nil => exact fun s h _ => h
  | cons op rest ih =>
    intro s h hsafe
    simp only [runOps, List.foldl_cons]
    exact ih (applyOp s op) (applyOp_inv s op (hsafe op (List.mem_cons_self op rest)) h)
      (fun o ho => hsafe o (List.mem_cons_of_mem op ho))

theorem initialState_inv : RegistryInv initialState :=
  ⟨by unfold IdsNodup; decide, by unfold ActiveOk; decide⟩

/-- C4 amended: as long as every tunnel-down invocation succeeds or the
tunnel tool is unavailable (simulated disconnect), at most one registered
egress point carries active=true after any sequence of registry operations
from the initial state. The counterexample shows the unconditional claim
fails: a swallowed wg-quick down failure keeps the old point flagged while a
subsequent successful connect flags a second one. -/
theorem at_most_one_active_when_down_succeeds (ops : List WGOp)
    (hsafe : ∀ op ∈ ops, opDownSafe op = true) :
    activeCount (runOps initialState ops) ≤ 1 :=
  registryInv_activeCount_le_one _ (runOps_inv ops initialState initialState_inv hsafe)

/-- C4 amended witness: a run that connects istanbul-tr with a working
tunnel tool ends with at most one active point. -/
theorem at_most_one_active_when_down_succeeds_witness :
    activeCount (runOps initialState
      [WGOp.connect "istanbul-tr" { wgAvailable := true, downOk := true, upOk := true }]) ≤ 1 :=
  at_most_one_active_when_down_succeeds
    [WGOp.connect "istanbul-tr" { wgAvailable := true, downOk := true, upOk := true }]
    (by decide)

theorem get_mod_some {α : Type _} (l : List α) (r : Nat) (hne : l ≠ []) :
    ∃ a, l.get? (r % l.length) = some a ∧ a ∈ l := by
  have hlen : 0 < l.length := List.length_pos.2 hne
  have hlt : r % l.length < l.length := Nat.mod_lt r hlen
  cases hg : l.get? (r % l.length) with
  | none =>
    exfalso
    have := List.get?_eq_none.1 hg
    omega
  | some a => exact ⟨a, rfl, List.get?_mem hg⟩

/-- C5: with a location filter, whenever some registered point matches the
location, selectBestConfig returns a matching point for every random draw; it
returns a healthy matching point whenever one exists, and still returns some
matching point when none of them is healthy. -/
theorem selectBest_respects_location (s : WGState) (l : String) (r : Nat)
    (hmatch : ∃ c ∈ s.configs, c.location = l) :
    ∃ c, selectBestConfig s (some l) r = some c ∧ c.location = l ∧
      ((∃ d ∈ s.configs, d.location = l ∧ d.isHealthy = true) → c.isHealthy = true) := by
  unfold selectBestConfig
  dsimp only
  set cand1 := s.configs.filter (fun c => c.location == l) with hcand1
  set hcands := cand1.filter (fun c => c.isHealthy) with hhc
  have hc1ne : cand1 ≠ [] := by
    rcases hmatch with ⟨c, hc, hloc⟩
    intro hnil
    have hmem : c ∈ cand1 := by
      rw [hcand1]
      exact List.mem_filter.2 ⟨hc, by simp [hloc]⟩
    rw [hnil] at hmem
    exact List.not_mem_nil c hmem
  by_cases hlen : hcands.length = 0
  · rw [if_pos hlen, if_pos (List.length_pos.2 hc1ne)]
    rw [if_neg (by have := List.length_pos.2 hc1ne; omega)]
    obtain ⟨a, hga, hma⟩ := get_mod_some cand1 r hc1ne
    refine ⟨a, hga, ?_, ?_⟩
    · have := (List.mem_filter.1 (hcand1 ▸ hma)).2
      exact eq_of_beq this
    · rintro ⟨d, hd, hdl, hdh⟩
      exfalso
      have hmem : d ∈ hcands := by
        rw [hhc, hcand1]
        exact List.mem_filter.2 ⟨List.mem_filter.2 ⟨hd, by simp [hdl]⟩, by simp [hdh]⟩
      have : 0 < hcands.length := List.length_pos.2 (fun hnil => by
        rw [hnil] at hmem; exact List.not_mem_nil d hmem)
      omega
  · rw [if_neg hlen, if_neg hlen]
    have hne3 : hcands ≠ [] := fun hnil => hlen (by rw [hnil]; rfl)
    obtain ⟨a, hga, hma⟩ := get_mod_some hcands r hne3
    have hsplit := List.mem_filter.1 (hhc ▸ hma)
    refine ⟨a, hga, ?_, fun _ => by simpa using hsplit.2⟩
    have := (List.mem_filter.1 (hcand1 ▸ hsplit.1)).2
    exact eq_of_beq this

/-- A two-point registry where only berlin-de matches location de and is
healthy. -/
def demoRegistry : WGState :=
  { configs :=
      [ { id := "berlin-de", name := "Berlin Germany", location := "de",
          endpoint := "berlin.de.wg.nordhold.net:51820", config := "x",
          isActive := false, isHealthy := true },
        { id := "dubai-ae", name := "Dubai UAE", location := "ae",
          endpoint := "dubai.ae.wg.nordhold.net:51820", config := "y",
          isActive := false, isHealthy := false } ]
    activeConfigId := none }

/-- C5 witness: on the demo registry a de-filtered selection returns a
healthy de point. -/
theorem selectBest_respects_location_witness :
    ∃ c, selectBestConfig demoRegistry (some "de") 5 = some c ∧ c.location = "de" ∧
      ((∃ d ∈ demoRegistry.configs, d.location = "de" ∧ d.isHealthy = true) →
        c.isHealthy = true) :=
  selectBest_respects_location demoRegistry "de" 5 (by decide)

theorem selectBest_some_of_nonempty (s : WGState) (loc : Option String) (r : Nat)
    (hne : s.configs ≠ []) :
    ∃ c, selectBestConfig s loc r = some c ∧ c ∈ s.configs := by
  unfold selectBestConfig
  cases loc with
  | none =>
    dsimp only
    set hcands := s.configs.filter (fun c => c.isHealthy) with hhc
    by_cases hlen : hcands.length = 0
    · rw [if_pos hlen, if_pos (List.length_pos.2 hne)]
      rw [if_neg (by have := List.length_pos.2 hne; omega)]
      obtain ⟨a, hga, hma⟩ := get_mod_some s.configs r hne
      exact ⟨a, hga, hma⟩
    · rw [if_neg hlen, if_neg hlen]
      have hne3 : hcands ≠ [] := fun hnil => hlen (by rw [hnil]; rfl)
      obtain ⟨a, hga, hma⟩ := get_mod_some hcands r hne3
      exact ⟨a, hga, List.mem_of_mem_filter (hhc ▸ hma)⟩
  | some l =>
    dsimp only
    set cand1 := s.configs.filter (fun c => c.location == l) with hcand1
    set hcands := cand1.filter (fun c => c.isHealthy) with hhc
    by_cases hlen : hcands.length = 0
    · rw [if_pos hlen]
      by_cases hgt : cand1.length > 0
      · rw [if_pos hgt]
        rw [if_neg (by omega)]
        have hc1ne : cand1 ≠ [] := fun hnil => by rw [hnil] at hgt; simp at hgt
        obtain ⟨a, hga, hma⟩ := get_mod_some cand1 r hc1ne
        exact ⟨a, hga, List.mem_of_mem_filter (hcand1 ▸ hma)⟩
      · rw [if_neg hgt]
        rw [if_neg (by have := List.length_pos.2 hne; omega)]
        obtain ⟨a, hga, hma⟩ := get_mod_some s.configs r hne
        exact ⟨a, hga, hma⟩
    · rw [if_neg hlen, if_neg hlen]
      have hne3 : hcands ≠ [] := fun hnil => hlen (by rw [hnil]; rfl)
      obtain ⟨a, hga, hma⟩ := get_mod_some hcands r hne3
      exact ⟨a, hga, List.mem_of_mem_filter (hcand1 ▸ List.mem_of_mem_filter (hhc ▸ hma))⟩

theorem find_some_of_mem {cs : List WGConfig} {cfg : WGConfig} (h : cfg ∈ cs) :
    ∃ c0, cs.find? (fun c => c.id == cfg.id) = some c0 := by
  induction cs with
  | nil => cases h
  | cons a t ih =>
    by_cases ha : (a.id == cfg.id) = true
    · exact ⟨a, by simp [List.find?, ha]⟩
    · rcases List.mem_cons.1 h with rfl | hmem
      · exact absurd (by simp) ha
      · obtain ⟨c0, hc0⟩ := ih hmem
        exact ⟨c0, by simp [List.find?, ha, hc0]⟩

theorem connect_known_succeeds {s : WGState} {cfg : WGConfig} (hmem : cfg ∈ s.configs)
    (tenv : TunnelEnv) (hok : tenv.wgAvailable = false ∨ tenv.upOk = true) :
    ∃ s1, connectToVPN s cfg.id tenv = .ok (true, s1) := by
  obtain ⟨c0, hc0⟩ := find_some_of_mem hmem
  simp only [connectToVPN, getConfig, hc0]
  by_cases hav : tenv.wgAvailable = false
  · rw [if_pos (by simp [hav])]
    exact ⟨_, rfl⟩
  · have hup : tenv.upOk = true := by
      rcases hok with h | h
      · exact absurd h hav
      · exact h
    have hav2 : tenv.wgAvailable = true := by
      cases h : tenv.wgAvailable
      · exact absurd h hav
      · rfl
    rw [if_neg (by simp [hav2])]
    rw [if_pos hup]
    exact ⟨_, rfl⟩

/-- An action trace entry of the failover scrape path: one navigation to the
url, or one egress connect. -/
inductive ScrapeAction where
  | fetch (url : String)
  | connectEgress (id : String)
deriving Repr, DecidableEq

/-- Modelled from the spec: the RateLimited (HTTP 429) failover branch of the
scrape routine is absent from src/ — only its caller (the route handler that
plumbs the vpnLocation hint into scrape and reads the egress point used) and
the registry it drives are present. Per the recovery policy, on a 429
outcome the handler selects the best egress point (optionally filtered by
the location hint), connects it, waits a settle delay, and retries the
identical request unchanged; when no point is available or the connect
fails, the original blocked response is returned as-is. The second component
records the navigations and the egress connect, in order. -/
def scrapeWithFailover (wg : WGState) (tenv : TunnelEnv) (r : Nat)
    (nav : Nat → Option Resp) (url : String) (vpnLocation : Option String) :
    Option Resp × List ScrapeAction :=
  match nav 0 with
  | none => (none, [.fetch url])
  | some resp =>
    if resp.status == 429 then
      match selectBestConfig wg vpnLocation r with
      | none => (some resp, [.fetch url])
      | some cfg =>
        match connectToVPN wg cfg.id tenv with
        | .ok (true, _) => (nav 1, [.fetch url, .connectEgress cfg.id, .fetch url])
        | _ => (some resp, [.fetch url, .connectEgress cfg.id])
    else (some resp, [.fetch url])

/-- C2: when the first fetch returns 429 while at least one healthy egress
point is registered and the tunnel connect can succeed, the handler selects
the best point under the caller's location hint, connects exactly that
point, and then re-issues the identical request before returning. -/
theorem rate_limited_failover_retries (wg : WGState) (tenv : TunnelEnv) (r : Nat)
    (nav : Nat → Option Resp) (url : String) (loc : Option String) (resp : Resp)
    (hnav : nav 0 = some resp) (h429 : resp.status = 429)
    (hhealthy : ∃ c ∈ wg.configs, c.isHealthy = true)
    (hconn : tenv.wgAvailable = false ∨ tenv.upOk = true) :
    ∃ cfg, selectBestConfig wg loc r = some cfg ∧ cfg ∈ wg.configs ∧
      scrapeWithFailover wg tenv r nav url loc =
        (nav 1, [.fetch url, .connectEgress cfg.id, .fetch url]) := by
  have hne : wg.configs ≠ [] := by
    rcases hhealthy with ⟨c, hc, _⟩
    intro hnil
    rw [hnil] at hc
    exact List.not_mem_nil c hc
  obtain ⟨cfg, hsel, hmem⟩ := selectBest_some_of_nonempty wg loc r hne
  obtain ⟨s1, hc⟩ := connect_known_succeeds hmem tenv hconn
  refine ⟨cfg, hsel, hmem, ?_⟩
  simp only [scrapeWithFailover, hnav, hsel, hc]
  rw [if_pos (by simp [h429])]

/-- The 429 outcome used by the witness. -/
def rl429Resp : Resp :=
  { status := 429, headers := [], statusText := "Too Many Requests", bufferResult := .ok [] }

/-- A page that is rate limited on the first navigation and fine afterwards. -/
def rlNav : Nat → Option Resp :=
  fun n => if n = 0 then some rl429Resp else some okResp

/-- C2 witness: on the demo registry with a healthy de point, a 429 first
fetch triggers select, connect and an identical retry. -/
theorem rate_limited_failover_retries_witness :
    ∃ cfg, selectBestConfig demoRegistry (some "de") 0 = some cfg ∧
      cfg ∈ demoRegistry.configs ∧
      scrapeWithFailover demoRegistry { wgAvailable := false, downOk := true, upOk := true } 0
          rlNav "https://example.com/" (some "de") =
        (rlNav 1, [.fetch "https://example.com/", .connectEgress cfg.id,
                   .fetch "https://example.com/"]) :=
  rate_limited_failover_retries demoRegistry
    { wgAvailable := false, downOk := true, upOk := true } 0 rlNav
    "https://example.com/" (some "de") rl429Resp (by simp [rlNav]) rfl (by decide)
    (Or.inl rfl)

/-! ## Embedding of the session pool (src/unnamed/part_000) -/

/-- const maxAttempts = 5 inside newPage (src/unnamed/part_000:36). -/
def newPageMaxAttempts : Nat := 5

/-- newPage (src/unnamed/part_000:35-66). env k tells whether the k-th
creation attempt (launching the browser if absent, then creating a page)
succeeds; on failure the browser is closed and nulled so the next attempt
relaunches it, and after the 5th failed attempt the hard failure is raised.
The returned Nat is the attempt on which the page was created. -/
def newPage (env : Nat → Bool) (attempts : Nat) : Except String Nat :=
  if env attempts then .ok attempts
  else if h : attempts ≥ newPageMaxAttempts then .error "Cannot create a new page"
  else newPage env (attempts + 1)
termination_by newPageMaxAttempts - attempts
decreasing_by
  simp only [newPageMaxAttempts] at *
  omega

/-- A pooled session; livenessAttempt records which liveness attempt
produced the throwaway page that passed the check. -/
structure Session where
  livenessAttempt : Nat
deriving Repr, DecidableEq

/-- The pool create factory (src/unnamed/part_000:68-110): a throwaway page
is created first (with newPage's relaunch retry) as a liveness check and
closed; only then is the injected page produced; injectOk tells whether
newInjectedPage succeeds. -/
def poolCreate (env : Nat → Bool) (injectOk : Bool) : Except String Session :=
  match newPage env 1 with
  | .error e => .error e
  | .ok k =>
    if injectOk then .ok { livenessAttempt := k }
    else .error "newInjectedPage failed"

theorem bool_eq_false_of_ne_true {b : Bool} (h : ¬b = true) : b = false := by
  cases hb : b
  · rfl
  · exact absurd hb h

theorem newPage_spec (env : Nat → Bool) :
    ∀ n a, newPageMaxAttempts - a = n → 1 ≤ a → a ≤ newPageMaxAttempts →
      (∃ k, a ≤ k ∧ k ≤ newPageMaxAttempts ∧ env k = true ∧
        (∀ j, a ≤ j → j < k → env j = false) ∧ newPage env a = .ok k) ∨
      ((∀ k, a ≤ k → k ≤ newPageMaxAttempts → env k = false) ∧
        newPage env a = .error "Cannot create a new page") := by
  intro n
  induction n with
  | zero =>
    intro a h0 h1 h5
    have ha : a = newPageMaxAttempts := by omega
    by_cases he : env a = true
    · left
      exact ⟨a, Nat.le_refl a, h5, he, fun j hj1 hj2 => absurd (Nat.lt_of_le_of_lt hj1 hj2)
        (Nat.lt_irrefl a), by rw [newPage, if_pos he]⟩
    · right
      constructor
      · intro k hk1 hk2
        have hka : k = a := by omega
        rw [hka]
        exact bool_eq_false_of_ne_true he
      · rw [newPage, if_neg he, dif_pos (by omega : a ≥ newPageMaxAttempts)]
  | succ n ih =>
    intro a h0 h1 h5
    by_cases he : env a = true
    · left
      exact ⟨a, Nat.le_refl a, h5, he, fun j hj1 hj2 => absurd (Nat.lt_of_le_of_lt hj1 hj2)
        (Nat.lt_irrefl a), by rw [newPage, if_pos he]⟩
    · have hef : env a = false := bool_eq_false_of_ne_true he
      have hnp : newPage env a = newPage env (a + 1) := by
        rw [newPage, if_neg he, dif_neg (by omega : ¬a ≥ newPageMaxAttempts)]
      rcases ih (a + 1) (by omega) (by omega) (by omega) with
        ⟨k, hk1, hk2, hk3, hk4, hk5⟩ | ⟨hall, herr⟩
      · left
        refine ⟨k, by omega, hk2, hk3, ?_, by rw [hnp]; exact hk5⟩
        intro j hj1 hj2
        by_cases hja : j = a
        · rw [hja]; exact hef
        · exact hk4 j (by omega) hj2
      · right
        refine ⟨?_, by rw [hnp]; exact herr⟩
        intro k hk1 hk2
        by_cases hka : k = a
        · rw [hka]; exact hef
        · exact hall k (by omega) hk2

/-- C7: with the engine reachable through newInjectedPage, session creation
is insensitive to attempt outcomes beyond the 5th, and either some liveness
attempt k ≤ 5 succeeds — every earlier one failing — and acquire gets a
session that passed that check, or attempts 1..5 all fail and creation
raises the hard session-creation failure. -/
theorem session_creation_bounded (env : Nat → Bool) (injectOk : Bool)
    (hinj : injectOk = true) :
    (∀ env2 : Nat → Bool, (∀ k, 1 ≤ k → k ≤ newPageMaxAttempts → env2 k = env k) →
      poolCreate env2 injectOk = poolCreate env injectOk) ∧
    ((∃ k, 1 ≤ k ∧ k ≤ newPageMaxAttempts ∧ env k = true ∧
        (∀ j, 1 ≤ j → j < k → env j = false) ∧
        poolCreate env injectOk = .ok { livenessAttempt := k }) ∨
      ((∀ k, 1 ≤ k → k ≤ newPageMaxAttempts → env k = false) ∧
        poolCreate env injectOk = .error "Cannot create a new page")) := by
  have hspec := newPage_spec env (newPageMaxAttempts - 1) 1 rfl (Nat.le_refl 1) (by decide)
  constructor
  · intro env2 hagree
    have hspec2 := newPage_spec env2 (newPageMaxAttempts - 1) 1 rfl (Nat.le_refl 1) (by decide)
    rcases hspec with ⟨k, hk1, hk2, hk3, hk4, hk5⟩ | ⟨hall, herr⟩
    · rcases hspec2 with ⟨k2, hk1b, hk2b, hk3b, hk4b, hk5b⟩ | ⟨hall2, herr2⟩
      · have hkk : k2 = k := by
          by_cases hlt : k2 < k
          · exfalso
            have := hk4 k2 hk1b hlt
            rw [hagree k2 hk1b hk2b] at hk3b
            rw [this] at hk3b
            exact Bool.noConfusion hk3b
          · by_cases hgt : k < k2
            · exfalso
              have := hk4b k hk1 hgt
              rw [hagree k hk1 hk2] at this
              rw [hk3] at this
              exact Bool.noConfusion this
            · omega
        rw [hkk] at hk5b
        simp only [poolCreate, hk5, hk5b]
      · exfalso
        have := hall2 k hk1 hk2
        rw [hagree k hk1 hk2, hk3] at this
        exact Bool.noConfusion this
    · rcases hspec2 with ⟨k2, hk1b, hk2b, hk3b, hk4b, hk5b⟩ | ⟨hall2, herr2⟩
      · exfalso
        have := hall k2 hk1b hk2b
        rw [hagree k2 hk1b hk2b] at hk3b
        rw [this] at hk3b
        exact Bool.noConfusion hk3b
      · simp only [poolCreate, herr, herr2]
  · rcases hspec with ⟨k, hk1, hk2, hk3, hk4, hk5⟩ | ⟨hall, herr⟩
    · left
      exact ⟨k, hk1, hk2, hk3, hk4, by simp only [poolCreate, hk5, hinj, if_true]⟩
    · right
      exact ⟨hall, by simp only [poolCreate, herr]⟩

/-- C7 witness: with an engine that answers on the second attempt, creation
succeeds on attempt 2 and depends only on the first five attempt outcomes. -/
theorem session_creation_bounded_witness :
    (∀ env2 : Nat → Bool,
        (∀ k, 1 ≤ k → k ≤ newPageMaxAttempts → env2 k = (fun j => decide (j = 2)) k) →
      poolCreate env2 true = poolCreate (fun j => decide (j = 2)) true) ∧
    ((∃ k, 1 ≤ k ∧ k ≤ newPageMaxAttempts ∧ (fun j => decide (j = 2)) k = true ∧
        (∀ j, 1 ≤ j → j < k → (fun j2 => decide (j2 = 2)) j = false) ∧
        poolCreate (fun j => decide (j = 2)) true = .ok { livenessAttempt := k }) ∨
      ((∀ k, 1 ≤ k → k ≤ newPageMaxAttempts → (fun j => decide (j = 2)) k = false) ∧
        poolCreate (fun j => decide (j = 2)) true = .error "Cannot create a new page")) :=
  session_creation_bounded (fun j => decide (j = 2)) true rfl

/-! ## Embedding of the /scrape request handler (src/unnamed/part_002) -/

/-- The two ways a page goes back to the generic-pool. -/
inductive PoolAction where
  | destroy
  | release
deriving Repr, DecidableEq

/-- Outcomes of the steps of the handler's try block when it serves the
request with a pooled session: pool.acquire, page.reload, the scrape call
(ok none models a null goto response), and the full-page screenshot taken in
the success path when requested. -/
structure HandlerEnv where
  acquireResult : Except String Nat
  reloadOk : Bool
  scrapeOutcome : Except String (Option ScrapeResult)
  screenshotOk : Bool

/-- The pool actions performed by the /scrape handler's catch/finally
(src/unnamed/part_002:205-227): errored is set exactly when the try block
threw; finally destroys the page when errored and releases it otherwise, and
does nothing when no page was acquired. On a null goto response the source
runs res.json(500).json(error): the first json call sends the response and
the second one then sets headers on the sent response, which throws
ERR_HTTP_HEADERS_SENT inside the try — so that branch too sets errored and
the finally destroys the page. -/
def scrapeHandler (env : HandlerEnv) (screenshotWanted : Bool) : List PoolAction :=
  match env.acquireResult with
  | .error _ => []
  | .ok _ =>
    if env.reloadOk = false then [.destroy]
    else
      match env.scrapeOutcome with
      | .error _ => [.destroy]
      | .ok none => [.destroy]
      | .ok (some _) =>
        if screenshotWanted && !env.screenshotOk then [.destroy] else [.release]

/-- Whether the handler's try block throws after the session was acquired:
a reload or scrape failure, the deterministic ERR_HTTP_HEADERS_SENT of the
double send on the null-goto-response branch, or a failing success-path
screenshot. -/
def handlerFault (env : HandlerEnv) (screenshotWanted : Bool) : Bool :=
  !env.reloadOk ||
    (match env.scrapeOutcome with
     | .error _ => true
     | .ok none => true
     | .ok (some _) => screenshotWanted && !env.screenshotOk)

/-- C8: whenever the handler acquired a pooled session, exactly one pool
action happens to it — destroy precisely when the try block faulted during
the session's use, release precisely when it did not. -/
theorem session_fate_exactly_one (env : HandlerEnv) (sw : Bool) (p : Nat)
    (hacq : env.acquireResult = .ok p) :
    ∃ a, scrapeHandler env sw = [a] ∧
      (a = PoolAction.destroy ↔ handlerFault env sw = true) ∧
      (a = PoolAction.release ↔ handlerFault env sw = false) := by
  simp only [scrapeHandler, hacq]
  by_cases hr : env.reloadOk = false
  · rw [if_pos hr]
    exact ⟨.destroy, rfl, by simp [handlerFault, hr], by simp [handlerFault, hr]⟩
  · rw [if_neg hr]
    have hrt : env.reloadOk = true := by
      cases hb : env.reloadOk
      · exact absurd hb hr
      · rfl
    cases ho : env.scrapeOutcome with
    | error e =>
      exact ⟨.destroy, rfl, by simp [handlerFault, hrt, ho], by simp [handlerFault, hrt, ho]⟩
    | ok o =>
      cases o with
      | none =>
        exact ⟨.destroy, rfl, by simp [handlerFault, hrt, ho], by simp [handlerFault, hrt, ho]⟩
      | some rr =>
        by_cases hs : (sw && !env.screenshotOk) = true
        · rw [if_pos hs]
          exact ⟨.destroy, rfl, by simp [handlerFault, hrt, ho, hs],
            by simp [handlerFault, hrt, ho, hs]⟩
        · rw [if_neg hs]
          have hsf : (sw && !env.screenshotOk) = false := by
            cases hb : (sw && !env.screenshotOk)
            · rfl
            · exact absurd hb hs
          exact ⟨.release, rfl, by simp [handlerFault, hrt, ho, hsf],
            by simp [handlerFault, hrt, ho, hsf]⟩

/-- A request served with a pooled session whose scrape throws a navigation
timeout. -/
def faultedEnv : HandlerEnv :=
  { acquireResult := .ok 1
    reloadOk := true
    scrapeOutcome := .error "Navigation timeout of 180000 ms exceeded"
    screenshotOk := true }

/-- C8 witness: a faulting scrape on an acquired session gets exactly one
pool action, and it is destroy, not release. -/
theorem session_fate_exactly_one_witness :
    ∃ a, scrapeHandler faultedEnv false = [a] ∧
      (a = PoolAction.destroy ↔ handlerFault faultedEnv false = true) ∧
      (a = PoolAction.release ↔ handlerFault faultedEnv false = false) :=
  session_fate_exactly_one faultedEnv false 1 rfl

/-- C10: when the navigation response is not challenge-mitigated, a failing
body read without progressive reveal does not raise — scrape returns body
null with status, statusText, headers and finalUrl still populated from the
response — while with progressive reveal the body-read error propagates. -/
theorem body_read_failure_fallback (env : PageEnv) (ps : ScrapeParams)
    (navIdx : Nat) (resp : Resp)
    (hnav : env.nav navIdx = some resp)
    (hnc : isCloudflareMitigateResponse resp = false) :
    (∀ e, ps.infiniteScroll = false → resp.bufferResult = .error e →
      scrape env ps 1 navIdx =
        (.ok (some { body := none, headers := resp.headers, status := resp.status,
                     statusText := resp.statusText, finalUrl := env.pageUrl navIdx }),
         navIdx + 1)) ∧
    (∀ e, ps.infiniteScroll = true → env.content navIdx = .error e →
      scrape env ps 1 navIdx = (.error (.navError e), navIdx + 1)) := by
  constructor
  · intro e hscroll herr
    rw [scrape]
    rw [dif_neg (by decide : ¬(1 > maxAttempts))]
    simp [hnav, hnc, hscroll, herr]
  · intro e hscroll herr
    rw [scrape]
    rw [dif_neg (by decide : ¬(1 > maxAttempts))]
    simp [hnav, hnc, hscroll, herr]

/-- A 404 whose body read throws. -/
def bodyFailResp : Resp :=
  { status := 404
    headers := [("content-type", "text/html")]
    statusText := "Not Found"
    bufferResult := .error "Could not load body for this request" }

/-- A page that always lands on bodyFailResp and whose content() read also
throws. -/
def bodyFailEnv : PageEnv :=
  { nav := fun _ => some bodyFailResp
    solveResult := fun _ => .ok ()
    content := fun _ => .error "Execution context was destroyed"
    pageUrl := fun _ => "https://example.com/missing" }

/-- Parameters without progressive reveal. -/
def noScrollParams : ScrapeParams :=
  { url := "https://example.com/missing"
    infiniteScroll := false
    waitForNetwork := false
    maxScrolls := none
    blockResources := true }

/-- Parameters with progressive reveal. -/
def scrollParams : ScrapeParams :=
  { url := "https://example.com/missing"
    infiniteScroll := true
    waitForNetwork := false
    maxScrolls := none
    blockResources := true }

/-- C10 witness: the 404 with an unreadable body yields a null-body result
without progressive reveal, and propagates the content error with it. -/
theorem body_read_failure_fallback_witness :
    scrape bodyFailEnv noScrollParams 1 0 =
      (.ok (some { body := none, headers := bodyFailResp.headers,
                   status := bodyFailResp.status, statusText := bodyFailResp.statusText,
                   finalUrl := bodyFailEnv.pageUrl 0 }), 1) ∧
    scrape bodyFailEnv scrollParams 1 0 =
      (.error (.navError "Execution context was destroyed"), 1) :=
  ⟨(body_read_failure_fallback bodyFailEnv noScrollParams 0 bodyFailResp rfl
      (by decide)).1 "Could not load body for this request" rfl rfl,
   (body_read_failure_fallback bodyFailEnv scrollParams 0 bodyFailResp rfl
      (by decide)).2 "Execution context was destroyed" rfl rfl⟩

end PptrScraper
